import Mathlib

/-!
Verification of the GTFS ingestion engine of `adaptive-signal-open-data`
(`src/gtfs_pipeline/gtfs_ingest.py`, `database.py`, `config.py`).

The Python code is shallowly embedded: network fetches, protobuf decoding,
ZIP opening and filesystem writes are modelled by explicit outcome values /
oracles passed as arguments, and every function mirrors the control flow of
its Python counterpart line by line.  Bytes are `List Nat`; Python's
truthiness tests on `Optional[bytes]` / `Optional[str]` are modelled by
explicit helper predicates.
-/

namespace GTFSPipeline

/-- Bytes of a payload, as handed around by the Python code. -/
abbrev Bytes := List Nat

/-- Outcome of one HTTP GET issued through the shared `aiohttp` session
(`GTFSIngest.fetch_gtfs_rt_data` / `fetch_gtfs_static_data` lines 72-89,
102-139): either status 200 with a body, a non-200 status, a timeout
(`asyncio.TimeoutError`), or any other transport exception. -/
inductive FetchOutcome where
  | ok (body : Bytes)
  | httpError (status : Nat)
  | timeout
  | transportError
  deriving DecidableEq, Repr

/-- `GTFSIngest.fetch_gtfs_rt_data` (gtfs_ingest.py lines 62-89): returns the
body on HTTP 200 and `None` on a non-200 status, timeout, or any other
exception.  Note that a 200 response with an empty body yields `some []`,
not `none`: the transport reports it as a successful fetch of 0 bytes. -/
def fetch_gtfs_rt_data (o : FetchOutcome) : Option Bytes :=
  match o with
  | .ok body => some body
  | .httpError _ => none
  | .timeout => none
  | .transportError => none

/-- Python truthiness of an `Optional[bytes]` value (`if not raw_data`):
`None` and `b""` are falsy, any nonempty byte string is truthy. -/
def pyTruthyBytes : Option Bytes → Bool
  | none => false
  | some b => !b.isEmpty

/-- Python truthiness of an `Optional[str]` value: `None` and `""` are
falsy, any nonempty string is truthy. -/
def pyTruthyStr : Option String → Bool
  | none => false
  | some s => !s.isEmpty

/-- Python's `a or b` for an optional string `a` with default `b`
(`timestamp = timestamp or datetime.now().strftime(...)`). -/
def pyOrStr : Option String → String → String
  | none, d => d
  | some s, d => if s.isEmpty then d else s

/-! ## GTFS-RT protobuf data model

Shallow embedding of the `gtfs_realtime_pb2.FeedMessage` fields that
`_parse_trip_updates` / `_parse_vehicle_positions` read.  Proto3 optional
message / field presence (`HasField`) is modelled with `Option`. -/

/-- The `trip` descriptor read from a trip update or a vehicle position. -/
structure TripDescriptor where
  trip_id : String
  route_id : String
  direction_id : Nat
  start_time : String
  start_date : String
  deriving DecidableEq, Repr

/-- A `VehicleDescriptor`; the parser only reads its `id`. -/
structure VehicleDescriptor where
  id : String
  deriving DecidableEq, Repr

/-- A `trip_update` message.  `vehicle` and `delay` are optional:
`HasField('vehicle')` / `HasField('delay')` decide their presence. -/
structure TripUpdateMsg where
  trip : TripDescriptor
  vehicle : Option VehicleDescriptor
  timestamp : Nat
  delay : Option Int
  deriving DecidableEq, Repr

/-- A `position` sub-message of a vehicle position.  Coordinates are
modelled as integers; only their presence/absence matters here. -/
structure PositionMsg where
  latitude : Int
  longitude : Int
  bearing : Int
  speed : Int
  deriving DecidableEq, Repr

/-- A `vehicle` (VehiclePosition) message.  The `position` sub-message is
optional (`HasField('position')`). -/
structure VehicleMsg where
  vehicle : VehicleDescriptor
  trip : TripDescriptor
  current_stop_sequence : Nat
  current_status : Nat
  timestamp : Nat
  position : Option PositionMsg
  deriving DecidableEq, Repr

/-- One `FeedEntity`.  `HasField('trip_update')` / `HasField('vehicle')`
are modelled by the two `Option` fields; an entity may carry either
payload, both, or neither (upstream feeds may mix entity types). -/
structure FeedEntity where
  trip_update : Option TripUpdateMsg
  vehicle : Option VehicleMsg
  deriving DecidableEq, Repr

/-- The `FeedHeader` of a `FeedMessage`. -/
structure FeedHeader where
  timestamp : Nat
  gtfs_realtime_version : String
  deriving DecidableEq, Repr

/-- A decoded `FeedMessage`. -/
structure FeedMessage where
  header : FeedHeader
  entity : List FeedEntity
  deriving DecidableEq, Repr

/-! ## Parsed (normalized) records -/

/-- One record of the `trip_updates` list built by `_parse_trip_updates`
(gtfs_ingest.py lines 178-187). -/
structure TripUpdateRecord where
  trip_id : String
  route_id : String
  direction_id : Nat
  start_time : String
  start_date : String
  vehicle_id : Option String
  timestamp : Nat
  delay : Option Int
  deriving DecidableEq, Repr

/-- The `position` sub-dictionary built by `_parse_vehicle_positions`
(gtfs_ingest.py lines 215-220). -/
structure PositionRecord where
  latitude : Int
  longitude : Int
  bearing : Int
  speed : Int
  deriving DecidableEq, Repr

/-- One record of the `vehicle_positions` list built by
`_parse_vehicle_positions` (gtfs_ingest.py lines 205-221). -/
structure VehiclePositionRecord where
  vehicle_id : String
  trip_id : String
  route_id : String
  direction_id : Nat
  start_time : String
  start_date : String
  current_stop_sequence : Nat
  current_status : Nat
  timestamp : Nat
  position : Option PositionRecord
  deriving DecidableEq, Repr

/-- The dictionary returned by `parse_gtfs_rt_data` on success: feed type,
header timestamp, header version, and exactly one of the two record lists
(the key present in the Python dict is selected by the constructor). -/
inductive ParsedData where
  | tripUpdates (timestamp : Nat) (gtfs_realtime_version : String)
      (trip_updates : List TripUpdateRecord)
  | vehiclePositions (timestamp : Nat) (gtfs_realtime_version : String)
      (vehicle_positions : List VehiclePositionRecord)
  deriving DecidableEq, Repr

/-- `data.get('feed_type', 'unknown')` on a dict built by the parsers. -/
def ParsedData.feed_type : ParsedData → String
  | .tripUpdates _ _ _ => "trip_updates"
  | .vehiclePositions _ _ _ => "vehicle_positions"

/-- Projection of one `trip_update` message into the record dictionary
built in `_parse_trip_updates` (gtfs_ingest.py lines 178-187): required
trip fields are copied, `vehicle_id` is `trip_update.vehicle.id` only when
`HasField('vehicle')`, `delay` is kept only when `HasField('delay')`. -/
def tripUpdateProj (tu : TripUpdateMsg) : TripUpdateRecord :=
  { trip_id := tu.trip.trip_id
    route_id := tu.trip.route_id
    direction_id := tu.trip.direction_id
    start_time := tu.trip.start_time
    start_date := tu.trip.start_date
    vehicle_id := tu.vehicle.map VehicleDescriptor.id
    timestamp := tu.timestamp
    delay := tu.delay }

/-- Projection of one `vehicle` message into the record dictionary built
in `_parse_vehicle_positions` (gtfs_ingest.py lines 205-221): the nested
`position` dictionary is built only when `HasField('position')`. -/
def vehicleProj (v : VehicleMsg) : VehiclePositionRecord :=
  { vehicle_id := v.vehicle.id
    trip_id := v.trip.trip_id
    route_id := v.trip.route_id
    direction_id := v.trip.direction_id
    start_time := v.trip.start_time
    start_date := v.trip.start_date
    current_stop_sequence := v.current_stop_sequence
    current_status := v.current_status
    timestamp := v.timestamp
    position := v.position.map fun p =>
      { latitude := p.latitude, longitude := p.longitude
        bearing := p.bearing, speed := p.speed } }

/-- `GTFSIngest._parse_trip_updates` (gtfs_ingest.py lines 171-195):
iterate the entities, keep those with `HasField('trip_update')`, project
each into a record; wrap with the header timestamp and version. -/
def parse_trip_updates (feed : FeedMessage) : ParsedData :=
  ParsedData.tripUpdates feed.header.timestamp feed.header.gtfs_realtime_version
    (feed.entity.filterMap fun e => e.trip_update.map tripUpdateProj)

/-- `GTFSIngest._parse_vehicle_positions` (gtfs_ingest.py lines 198-229):
iterate the entities, keep those with `HasField('vehicle')`, project each
into a record; wrap with the header timestamp and version. -/
def parse_vehicle_positions (feed : FeedMessage) : ParsedData :=
  ParsedData.vehiclePositions feed.header.timestamp feed.header.gtfs_realtime_version
    (feed.entity.filterMap fun e => e.vehicle.map vehicleProj)

/-- `GTFSIngest.parse_gtfs_rt_data` (gtfs_ingest.py lines 142-168).
`decodeProto` models `FeedMessage.ParseFromString`: `none` when parsing
raises (malformed bytes).  The Python function returns `{}` — a falsy
dict — on an unknown feed type or a parse exception; that is `none` here,
a successfully parsed dict is `some`. -/
def parse_gtfs_rt_data (decodeProto : Bytes → Option FeedMessage)
    (data : Bytes) (feed_type : String) : Option ParsedData :=
  if feed_type = "trip_updates" then
    match decodeProto data with
    | some feed => some (parse_trip_updates feed)
    | none => none
  else if feed_type = "vehicle_positions" then
    match decodeProto data with
    | some feed => some (parse_vehicle_positions feed)
    | none => none
  else
    none

/-! ## Static bundle decoding -/

/-- A parsed CSV table (`pandas.DataFrame`), abstracted to its rows. -/
abbrev DataFrame := List (List String)

/-- An opened ZIP archive: the member list, each member paired with the
outcome of `pd.read_csv` on it — `some df` when it parses, `none` when
reading/parsing it raises. -/
structure ZipFile where
  files : List (String × Option DataFrame)
  deriving DecidableEq, Repr

/-- The fixed list of recognized GTFS table files
(gtfs_ingest.py lines 114-117). -/
def gtfs_files : List String :=
  ["agency.txt", "stops.txt", "routes.txt", "trips.txt",
   "stop_times.txt", "calendar.txt", "calendar_dates.txt"]

/-- On the seven fixed table names, Python's `file_name.replace('.txt', '')`
removes exactly the four-character `.txt` suffix. -/
def stripTxt (file_name : String) : String := file_name.dropRight 4

/-- The table-reading loop of `GTFSIngest.fetch_gtfs_static_data`
(gtfs_ingest.py lines 111-127): for each recognized file name, if it is in
the archive's member list, try to parse it; on success add it to the dict
under the name without `.txt`; a parse error only logs a warning and the
loop proceeds; a file absent from the archive is skipped silently. -/
def read_zip_tables (zf : ZipFile) : List (String × DataFrame) :=
  gtfs_files.foldl (fun gtfs_data file_name =>
    match zf.files.lookup file_name with
    | some (some df) => gtfs_data ++ [(stripTxt file_name, df)]
    | some none => gtfs_data
    | none => gtfs_data) []

/-- `GTFSIngest.fetch_gtfs_static_data` (gtfs_ingest.py lines 92-139).
`openZip` models `zipfile.ZipFile(io.BytesIO(zip_data))`: `none` when the
container is corrupt and opening raises (the outer `except` then returns
`None`).  On success the function returns the parsed tables together with
the raw ZIP bytes. -/
def fetch_gtfs_static_data (openZip : Bytes → Option ZipFile)
    (o : FetchOutcome) : Option (List (String × DataFrame) × Bytes) :=
  match o with
  | .ok zip_data =>
    match openZip zip_data with
    | some zf => some (read_zip_tables zf, zip_data)
    | none => none
  | .httpError _ => none
  | .timeout => none
  | .transportError => none

/-! ## Persistence (`DatabaseManager`, database.py)

Filesystem writes are modelled by an oracle `FsOracle` saying whether each
of the (at most two) writes of one store call succeeds.  A store function
returns the list of successfully written files together with
`some result` when it returns normally and `none` when it raises past the
caller. -/

/-- Outcome oracle for the filesystem writes of one store call. -/
structure FsOracle where
  rawWriteOk : Bool
  jsonWriteOk : Bool
  deriving DecidableEq, Repr

/-- A file successfully written by the store layer. -/
inductive WriteEvent where
  | wroteRaw (filename : String)
  | wroteJson (filename : String)
  deriving DecidableEq, Repr

/-- The filename of `DatabaseManager.store_gtfs_rt_raw`
(database.py line 51): `gtfs_rt_<feed_type>_<timestamp>.pb`.  It depends
only on the feed type and the timestamp — no source component. -/
def rt_raw_filename (feed_type timestamp : String) : String :=
  "gtfs_rt_" ++ feed_type ++ "_" ++ timestamp ++ ".pb"

/-- The filename of the parsed-JSON write of
`DatabaseManager.store_gtfs_rt_data` (database.py line 109):
`gtfs_rt_<feed_type>_<timestamp>.json`. -/
def rt_json_filename (feed_type timestamp : String) : String :=
  "gtfs_rt_" ++ feed_type ++ "_" ++ timestamp ++ ".json"

/-- The filename of `DatabaseManager.store_gtfs_static_raw`
(database.py line 61): `gtfs_static_<timestamp>.zip`. -/
def static_raw_filename (timestamp : String) : String :=
  "gtfs_static_" ++ timestamp ++ ".zip"

/-- The filename of the parsed-JSON write of
`DatabaseManager.store_gtfs_static_data` (database.py line 195):
`gtfs_static_<timestamp>.json`. -/
def static_json_filename (timestamp : String) : String :=
  "gtfs_static_" ++ timestamp ++ ".json"

/-- `DatabaseManager.store_gtfs_rt_data` (database.py lines 68-149).
Control flow mirrored from the source:
1. `feed_type = data.get('feed_type', 'unknown')`;
2. `if self.save_raw_proto and raw_bytes and timestamp:` call
   `store_gtfs_rt_raw` — this call is OUTSIDE any `try`, so a filesystem
   error there raises past the caller (`none` result);
3. inside a `try`: write the parsed JSON under
   `gtfs_rt_<feed_type>_<timestamp or now>.json`; an exception is caught
   and the function returns `False`;
4. the Google Drive block (lines 122-147) is wrapped in its own
   `try/except`, writes only a temporary file and never changes the
   return value, so it is not modelled;
5. return `True`.
`now` models `datetime.now().strftime('%Y%m%d_%H%M%S')` used as the
fallback timestamp. -/
def store_gtfs_rt_data (save_raw_proto : Bool) (fs : FsOracle) (now : String)
    (data : ParsedData) (feed_url : String)
    (raw_bytes : Option Bytes) (timestamp : Option String) :
    List WriteEvent × Option Bool :=
  let feed_type := data.feed_type
  let _ := feed_url
  let doRaw := save_raw_proto && pyTruthyBytes raw_bytes && pyTruthyStr timestamp
  if doRaw && !fs.rawWriteOk then
    ([], none)
  else
    let rawEvents :=
      if doRaw then [WriteEvent.wroteRaw (rt_raw_filename feed_type (pyOrStr timestamp now))]
      else []
    let ts := pyOrStr timestamp now
    if fs.jsonWriteOk then
      (rawEvents ++ [WriteEvent.wroteJson (rt_json_filename feed_type ts)], some true)
    else
      (rawEvents, some false)

/-- `DatabaseManager.store_gtfs_static_data` (database.py lines 151-218).
Same shape as `store_gtfs_rt_data`: the conditional
`store_gtfs_static_raw` call (line 172-174) is outside any `try` and so
raises past the caller on a filesystem error; the JSON write is inside a
`try` whose handler returns `False`; success returns `True`. -/
def store_gtfs_static_data (save_raw_static_zip : Bool) (fs : FsOracle) (now : String)
    (data : List (String × DataFrame)) (feed_url : String)
    (raw_bytes : Option Bytes) (timestamp : Option String) :
    List WriteEvent × Option Bool :=
  let _ := data
  let _ := feed_url
  let doRaw := save_raw_static_zip && pyTruthyBytes raw_bytes && pyTruthyStr timestamp
  if doRaw && !fs.rawWriteOk then
    ([], none)
  else
    let rawEvents :=
      if doRaw then [WriteEvent.wroteRaw (static_raw_filename (pyOrStr timestamp now))]
      else []
    let ts := pyOrStr timestamp now
    if fs.jsonWriteOk then
      (rawEvents ++ [WriteEvent.wroteJson (static_json_filename ts)], some true)
    else
      (rawEvents, some false)

/-! ## Orchestrator (`GTFSIngest`, gtfs_ingest.py) -/

/-- Observable outcome of one `ingest_feed` / `ingest_gtfs_static` call:
the returned boolean, whether the store layer was invoked at all, and the
files written. -/
structure IngestOutcome where
  success : Bool
  storeInvoked : Bool
  events : List WriteEvent
  deriving DecidableEq, Repr

/-- `GTFSIngest.ingest_feed` (gtfs_ingest.py lines 232-272):
fetch; `if not raw_data: return False` (both `None` and an empty body are
falsy); capture the timestamp; parse; `if not parsed_data: return False`;
store; an exception escaping the store call is caught by the outer
`except` and yields `False`. -/
def ingest_feed (save_raw_proto : Bool) (fs : FsOracle)
    (decodeProto : Bytes → Option FeedMessage) (o : FetchOutcome)
    (now : String) (feed_url feed_type : String) : IngestOutcome :=
  match fetch_gtfs_rt_data o with
  | none => ⟨false, false, []⟩
  | some raw_data =>
    if raw_data.isEmpty then ⟨false, false, []⟩
    else
      match parse_gtfs_rt_data decodeProto raw_data feed_type with
      | none => ⟨false, false, []⟩
      | some parsed_data =>
        match store_gtfs_rt_data save_raw_proto fs now parsed_data feed_url
            (some raw_data) (some now) with
        | (events, some success) => ⟨success, true, events⟩
        | (events, none) => ⟨false, true, events⟩

/-- `GTFSIngest.ingest_gtfs_static` (gtfs_ingest.py lines 275-307): fetch
and parse the bundle; `if not fetch_result: return False`; store; an
exception escaping the store call is caught and yields `False`. -/
def ingest_gtfs_static (save_raw_static_zip : Bool) (fs : FsOracle)
    (openZip : Bytes → Option ZipFile) (o : FetchOutcome)
    (now : String) (gtfs_static_url : String) : IngestOutcome :=
  match fetch_gtfs_static_data openZip o with
  | none => ⟨false, false, []⟩
  | some (gtfs_data, raw_zip) =>
    match store_gtfs_static_data save_raw_static_zip fs now gtfs_data gtfs_static_url
        (some raw_zip) (some now) with
    | (events, some success) => ⟨success, true, events⟩
    | (events, none) => ⟨false, true, events⟩

/-- The configuration fields of `GTFSConfig` (config.py lines 24-64) that
the orchestrator reads: the real-time feed mapping (feed type → URL list,
in insertion order), the static bundle URL, and the inter-request delay
in seconds (default `20.0`, modelled as `20`). -/
structure GTFSConfig where
  feeds : List (String × List String)
  gtfs_static_url : String
  request_delay : Nat
  deriving DecidableEq, Repr

/-- The default configuration instance (config.py lines 29-42, 68). -/
def DEFAULT_CONFIG : GTFSConfig :=
  { feeds :=
      [("trip_updates",
        ["https://gtfs-rt-files.buscatch.jp/toyama/chitetsu_tram/TripUpdates.pb"]),
       ("vehicle_positions",
        ["https://gtfs-rt-files.buscatch.jp/toyama/chitetsu_tram/VehiclePositions.pb"])]
    gtfs_static_url :=
      "https://api.gtfs-data.jp/v2/organizations/chitetsu/feeds/chitetsushinaidensha/files/feed.zip?rid=current"
    request_delay := 20 }

/-- All configured real-time URLs, in configured order. -/
def GTFSConfig.rtUrls (cfg : GTFSConfig) : List String :=
  (cfg.feeds.map Prod.snd).flatten

/-- `results[url] = success` on a Python dict kept as an insertion-ordered
association list: an existing key keeps its position and gets the new
value, a new key is appended. -/
def dictInsert (m : List (String × Bool)) (k : String) (v : Bool) :
    List (String × Bool) :=
  if m.any (fun p => p.1 = k) then
    m.map (fun p => if p.1 = k then (k, v) else p)
  else
    m ++ [(k, v)]

/-- Trace of one `ingest_all_feeds` cycle: the static ingest, each
real-time ingest, and each `asyncio.sleep(request_delay)`. -/
inductive CycleEvent where
  | ingestedStatic (url : String) (ok : Bool)
  | ingestedRT (url : String) (feed_type : String) (ok : Bool)
  | slept (seconds : Nat)
  deriving DecidableEq, Repr

/-- The per-cycle environment: feature flags, filesystem oracle, protobuf
decoder, ZIP opener, fetch outcome of the static URL, fetch outcome per
real-time URL, and the cycle's wall-clock timestamp string. -/
structure CycleEnv where
  save_raw_proto : Bool
  save_raw_static_zip : Bool
  fs : FsOracle
  decodeProto : Bytes → Option FeedMessage
  openZip : Bytes → Option ZipFile
  staticFetch : FetchOutcome
  rtFetch : String → FetchOutcome
  now : String

/-- `success = await self.ingest_feed(feed_url, feed_type)` — the
per-source success bit recorded by `ingest_all_feeds` for a real-time URL
of a given feed type under environment `env`
(gtfs_ingest.py line 326). -/
def rtSuccess (env : CycleEnv) (feed_type feed_url : String) : Bool :=
  (ingest_feed env.save_raw_proto env.fs env.decodeProto
    (env.rtFetch feed_url) env.now feed_url feed_type).success

/-- `static_success = await self.ingest_gtfs_static()` — the static
ingest success bit of a cycle under environment `env`
(gtfs_ingest.py line 320). -/
def staticSuccess (env : CycleEnv) (cfg : GTFSConfig) : Bool :=
  (ingest_gtfs_static env.save_raw_static_zip env.fs env.openZip
    env.staticFetch env.now cfg.gtfs_static_url).success

/-- `GTFSIngest.ingest_all_feeds` (gtfs_ingest.py lines 310-332):
ingest the static bundle first and record its outcome under the static
URL; then for each feed type and each of its URLs, ingest the feed,
record the outcome under the URL, and sleep `request_delay` seconds
(inside the loop, after every real-time feed).  Returns the result dict
and the event trace. -/
def ingest_all_feeds (env : CycleEnv) (cfg : GTFSConfig) :
    List (String × Bool) × List CycleEvent :=
  cfg.feeds.foldl (fun acc ft =>
    ft.2.foldl (fun acc2 feed_url =>
      (dictInsert acc2.1 feed_url (rtSuccess env ft.1 feed_url),
       acc2.2 ++ [CycleEvent.ingestedRT feed_url ft.1 (rtSuccess env ft.1 feed_url),
                  CycleEvent.slept cfg.request_delay])) acc)
    (dictInsert [] cfg.gtfs_static_url (staticSuccess env cfg),
     [CycleEvent.ingestedStatic cfg.gtfs_static_url (staticSuccess env cfg)])

/-- Specification-side description of the result dict of one cycle: the
static URL with its outcome first, then every real-time URL with its
outcome, in configured order. -/
def cycleResultsSpec (env : CycleEnv) (cfg : GTFSConfig) :
    List (String × Bool) :=
  (cfg.gtfs_static_url, staticSuccess env cfg) ::
    cfg.feeds.flatMap (fun ft => ft.2.map (fun u => (u, rtSuccess env ft.1 u)))

/-- Specification-side description of the event trace of one cycle. -/
def cycleTraceSpec (env : CycleEnv) (cfg : GTFSConfig) : List CycleEvent :=
  CycleEvent.ingestedStatic cfg.gtfs_static_url (staticSuccess env cfg) ::
    cfg.feeds.flatMap (fun ft => ft.2.flatMap (fun u =>
      [CycleEvent.ingestedRT u ft.1 (rtSuccess env ft.1 u),
       CycleEvent.slept cfg.request_delay]))

/-! ## Continuous mode (`continuous_ingestion`, gtfs_ingest.py lines 335-362) -/

/-- What one iteration of the `while True` loop observes: the cycle runs
to completion with a result dict, raises an unexpected exception, or is
interrupted by the operator (`KeyboardInterrupt`). -/
inductive CycleOutcome where
  | ok (results : List (String × Bool))
  | unexpectedError
  | interrupt
  deriving DecidableEq, Repr

/-- Trace events of the continuous loop. -/
inductive LoopEvent where
  | cycleCompleted (successful total : Nat)
  | errorCaught
  | waited (seconds : Nat)
  | stoppedByUser
  deriving DecidableEq, Repr

/-- `GTFSIngest.continuous_ingestion` (gtfs_ingest.py lines 335-362),
run over a finite prefix of per-iteration outcomes.  A completed cycle
logs its success count and waits `interval` seconds; an unexpected error
is caught, logged, and the loop waits `interval` seconds and retries; a
`KeyboardInterrupt` breaks out of the loop and the remaining outcomes are
never consumed. -/
def continuous_ingestion (interval : Nat) : List CycleOutcome → List LoopEvent
  | [] => []
  | o :: rest =>
    match o with
    | .ok results =>
      LoopEvent.cycleCompleted (results.countP (fun p => p.2)) results.length ::
        LoopEvent.waited interval :: continuous_ingestion interval rest
    | .unexpectedError =>
      LoopEvent.errorCaught :: LoopEvent.waited interval ::
        continuous_ingestion interval rest
    | .interrupt => [LoopEvent.stoppedByUser]

/-! ## Derived observations and spec-side descriptions used in the theorems -/

/-- The `trip_updates` list of a parsed dict (empty for the other kind). -/
def ParsedData.tripUpdateRecords : ParsedData → List TripUpdateRecord
  | .tripUpdates _ _ l => l
  | .vehiclePositions _ _ _ => []

/-- The `vehicle_positions` list of a parsed dict (empty for the other
kind). -/
def ParsedData.vehiclePositionRecords : ParsedData → List VehiclePositionRecord
  | .tripUpdates _ _ _ => []
  | .vehiclePositions _ _ l => l

/-- Whether a recognized table file is present in the archive and parses
successfully (so that the reading loop adds it to the table set). -/
def tableParses (zf : ZipFile) (file_name : String) : Bool :=
  match zf.files.lookup file_name with
  | some (some _) => true
  | some none => false
  | none => false

/-- Is a cycle event one of the `asyncio.sleep(request_delay)` pauses? -/
def isSlept : CycleEvent → Bool
  | .slept _ => true
  | _ => false

/-- The loop events one non-interrupted iteration of
`continuous_ingestion` contributes (the `interrupt` case is never used
under the theorems' hypotheses and is mapped to `[]`). -/
def loopCycleEvents (interval : Nat) : CycleOutcome → List LoopEvent
  | .ok results =>
    [LoopEvent.cycleCompleted (results.countP (fun p => p.2)) results.length,
     LoopEvent.waited interval]
  | .unexpectedError => [LoopEvent.errorCaught, LoopEvent.waited interval]
  | .interrupt => []

/-- A concrete cycle environment in which every fetch times out; used for
concrete instances of the cycle-level theorems. -/
def timeoutEnv : CycleEnv :=
  { save_raw_proto := false, save_raw_static_zip := false, fs := ⟨true, true⟩,
    decodeProto := fun _ => none, openZip := fun _ => none,
    staticFetch := .timeout, rtFetch := fun _ => .timeout,
    now := "20240101_000000" }

/-- The trip update of the spec's scenario: required trip fields set, no
vehicle, no delay. -/
def scenarioTrip : TripUpdateMsg :=
  { trip := { trip_id := "T1", route_id := "R1", direction_id := 0,
              start_time := "08:00:00", start_date := "20240101" }
    vehicle := none
    timestamp := 999
    delay := none }

/-- A vehicle position whose `position` sub-message is absent. -/
def scenarioVehicle : VehicleMsg :=
  { vehicle := { id := "V1" }
    trip := { trip_id := "T1", route_id := "R1", direction_id := 0,
              start_time := "08:00:00", start_date := "20240101" }
    current_stop_sequence := 3
    current_status := 2
    timestamp := 999
    position := none }

/-- A trip-update feed with one entity carrying `scenarioTrip`. -/
def scenarioFeedTU : FeedMessage :=
  { header := { timestamp := 1000, gtfs_realtime_version := "2.0" }
    entity := [{ trip_update := some scenarioTrip, vehicle := none }] }

/-- A vehicle-position feed with one entity carrying `scenarioVehicle`. -/
def scenarioFeedVP : FeedMessage :=
  { header := { timestamp := 1000, gtfs_realtime_version := "2.0" }
    entity := [{ trip_update := none, vehicle := some scenarioVehicle }] }

/-! ## Theorems for the claims -/

/-- C2: for every source whose fetch fails (timeout, non-200 status, or
transport error), `ingest_feed` returns `false`, never invokes the store
layer (so neither the raw nor the parsed persist runs), and writes no
artifact of any kind in that cycle. -/
theorem C2_fetch_failure_writes_nothing
    (save_raw_proto : Bool) (fs : FsOracle)
    (decodeProto : Bytes → Option FeedMessage) (o : FetchOutcome)
    (now feed_url feed_type : String)
    (h : o = FetchOutcome.timeout ∨ (∃ s, o = FetchOutcome.httpError s) ∨
      o = FetchOutcome.transportError) :
    ingest_feed save_raw_proto fs decodeProto o now feed_url feed_type =
      ⟨false, false, []⟩ := by
  rcases h with h | ⟨s, h⟩ | h <;> subst h <;> rfl

/-- Witness for C2: a concrete timed-out fetch with raw saving enabled
still returns `false` with no store call and no writes. -/
theorem C2_witness :
    ingest_feed true ⟨true, true⟩ (fun _ => none) FetchOutcome.timeout
      "20240101_000000" "https://a.example/tu.pb" "trip_updates" =
      ⟨false, false, []⟩ :=
  C2_fetch_failure_writes_nothing true ⟨true, true⟩ (fun _ => none)
    FetchOutcome.timeout "20240101_000000" "https://a.example/tu.pb"
    "trip_updates" (Or.inl rfl)

/-- C9: a fetch that succeeds with HTTP 200 but an empty body is reported
by the transport as a successful fetch of 0 bytes (`some []`), yet
`ingest_feed` treats the cycle as a failure: it returns `false`, the store
layer is never invoked, and nothing is written — decoding is never
reached because the falsy-body guard fires first, whatever the decoder
would do. -/
theorem C9_empty_body_is_failure
    (save_raw_proto : Bool) (fs : FsOracle)
    (decodeProto : Bytes → Option FeedMessage)
    (now feed_url feed_type : String) :
    fetch_gtfs_rt_data (FetchOutcome.ok []) = some [] ∧
    ingest_feed save_raw_proto fs decodeProto (FetchOutcome.ok [])
      now feed_url feed_type = ⟨false, false, []⟩ :=
  ⟨rfl, rfl⟩

/-- C4 counterexample: the raw real-time artifact filename contains no
source slug.  Two sources with distinct URLs but the same feed kind and
timestamp produce byte-identical store behaviour, and the raw filename is
`gtfs_rt_trip_updates_20240101_000000.pb` — no source component — so
distinct sources of the same kind and timestamp do NOT map to distinct
filenames. -/
theorem C4_counterexample :
    ("https://a.example/tu.pb" : String) ≠ "https://b.example/tu.pb" ∧
    store_gtfs_rt_data true ⟨true, true⟩ "20240101_000000"
      (ParsedData.tripUpdates 1000 "2.0" []) "https://a.example/tu.pb"
      (some [1]) (some "20240101_000000") =
    store_gtfs_rt_data true ⟨true, true⟩ "20240101_000000"
      (ParsedData.tripUpdates 1000 "2.0" []) "https://b.example/tu.pb"
      (some [1]) (some "20240101_000000") ∧
    (store_gtfs_rt_data true ⟨true, true⟩ "20240101_000000"
      (ParsedData.tripUpdates 1000 "2.0" []) "https://a.example/tu.pb"
      (some [1]) (some "20240101_000000")).1 =
      [WriteEvent.wroteRaw "gtfs_rt_trip_updates_20240101_000000.pb",
       WriteEvent.wroteJson "gtfs_rt_trip_updates_20240101_000000.json"] := by
  refine ⟨?_, rfl, rfl⟩
  decide

/-- C4 amended: the raw real-time artifact filename is the deterministic
function `gtfs_rt_<feed_kind>_<timestamp>.pb` of the feed kind and the
timestamp only: two independent calls with the same tuple behave
identically, and the behaviour is independent of the source URL — in
particular distinct sources of the same kind and timestamp map to the
SAME filename, as no source slug occurs in it. -/
theorem C4_amended_filename_deterministic_without_slug
    (save_raw_proto : Bool) (fs : FsOracle) (now : String)
    (data : ParsedData) (u1 u2 : String)
    (raw_bytes : Option Bytes) (timestamp : Option String) :
    store_gtfs_rt_data save_raw_proto fs now data u1 raw_bytes timestamp =
      store_gtfs_rt_data save_raw_proto fs now data u2 raw_bytes timestamp ∧
    rt_raw_filename "trip_updates" "20240101_000000" =
      "gtfs_rt_trip_updates_20240101_000000.pb" := by
  exact ⟨rfl, rfl⟩

/-- C5 counterexample: with raw saving enabled, truthy raw bytes and a
truthy timestamp, a filesystem error in the raw write makes
`store_gtfs_rt_data` raise past its caller (result `none`) instead of
returning `false`. -/
theorem C5_counterexample :
    store_gtfs_rt_data true ⟨false, true⟩ "20240101_000000"
      (ParsedData.tripUpdates 1000 "2.0" []) "https://a.example/tu.pb"
      (some [1]) (some "20240101_000000") = ([], none) := rfl

/-- C5 amended: whenever the optional raw write is skipped (flag off or
falsy raw bytes/timestamp) or succeeds, `store_gtfs_rt_data` and
`store_gtfs_static_data` never raise past the caller: they return exactly
the success of the parsed-JSON write, `true` on success and `false` on a
filesystem error there.  (A filesystem error in the flag-enabled raw
write, by contrast, raises past the caller — see the counterexample.) -/
theorem C5_amended_persistParsed_reports_by_bool
    (save_raw : Bool) (fs : FsOracle) (now : String) (data : ParsedData)
    (tables : List (String × DataFrame)) (feed_url : String)
    (raw_bytes : Option Bytes) (timestamp : Option String)
    (h : (save_raw && pyTruthyBytes raw_bytes && pyTruthyStr timestamp) = false ∨
      fs.rawWriteOk = true) :
    (store_gtfs_rt_data save_raw fs now data feed_url raw_bytes timestamp).2 =
      some fs.jsonWriteOk ∧
    (store_gtfs_static_data save_raw fs now tables feed_url raw_bytes timestamp).2 =
      some fs.jsonWriteOk := by
  unfold store_gtfs_rt_data store_gtfs_static_data
  rcases h with h | h <;> rw [h] <;> simp <;> cases hj : fs.jsonWriteOk <;> simp [hj]

/-- Witness for C5 amended: with the raw flag off and a failing JSON
write, both store functions return `some false` (failure reported via the
boolean, no exception). -/
theorem C5_amended_witness :
    (store_gtfs_rt_data false ⟨true, false⟩ "20240101_000000"
      (ParsedData.tripUpdates 1000 "2.0" []) "https://a.example/tu.pb"
      (some [1]) (some "20240101_000000")).2 = some false ∧
    (store_gtfs_static_data false ⟨true, false⟩ "20240101_000000"
      [("stops", [["s1"]])] "https://a.example/feed.zip"
      (some [1]) (some "20240101_000000")).2 = some false :=
  C5_amended_persistParsed_reports_by_bool false ⟨true, false⟩
    "20240101_000000" (ParsedData.tripUpdates 1000 "2.0" [])
    [("stops", [["s1"]])] "https://a.example/tu.pb"
    (some [1]) (some "20240101_000000") (Or.inl rfl)

/-- C10: persistence of one source's cycle is not atomic.  With the
raw-save flag enabled, truthy raw bytes and timestamp, a successful raw
write and a failing parsed-JSON write, `store_gtfs_rt_data` returns
`false` while the raw protobuf artifact for that (kind, timestamp) has
already been written. -/
theorem C10_raw_written_before_parsed
    (fs : FsOracle) (now : String) (data : ParsedData) (feed_url : String)
    (raw_bytes : Option Bytes) (timestamp : Option String)
    (h1 : pyTruthyBytes raw_bytes = true) (h2 : pyTruthyStr timestamp = true)
    (h3 : fs.rawWriteOk = true) (h4 : fs.jsonWriteOk = false) :
    store_gtfs_rt_data true fs now data feed_url raw_bytes timestamp =
      ([WriteEvent.wroteRaw (rt_raw_filename data.feed_type (pyOrStr timestamp now))],
       some false) := by
  unfold store_gtfs_rt_data
  rw [h1, h2, h3, h4]
  simp

/-- Witness for C10: a concrete non-atomic cycle — the raw `.pb` file is
on disk while the store call reports failure. -/
theorem C10_witness :
    store_gtfs_rt_data true ⟨true, false⟩ "20240101_000000"
      (ParsedData.tripUpdates 1000 "2.0" []) "https://a.example/tu.pb"
      (some [1]) (some "20240101_000000") =
      ([WriteEvent.wroteRaw (rt_raw_filename
          (ParsedData.tripUpdates 1000 "2.0" []).feed_type
          (pyOrStr (some "20240101_000000") "20240101_000000"))],
       some false) :=
  C10_raw_written_before_parsed ⟨true, false⟩ "20240101_000000"
    (ParsedData.tripUpdates 1000 "2.0" []) "https://a.example/tu.pb"
    (some [1]) (some "20240101_000000") rfl rfl rfl rfl

/-- C6: optional fields of the real-time decoders are present-or-absent,
never defaulted.  For an entity carrying a trip update, its record is in
the decoded batch with `delay` and `vehicle_id` copied as options: an
absent delay stays `none` (and is distinguishable from `some 0`), an
absent vehicle stays `none`; for an entity carrying a vehicle position,
an absent position sub-message yields a `none` position sub-record. -/
theorem C6_optional_fields_not_defaulted
    (feed : FeedMessage) (e : FeedEntity) (tu : TripUpdateMsg)
    (v : VehicleMsg) (he : e ∈ feed.entity) :
    (e.trip_update = some tu →
      tripUpdateProj tu ∈ (parse_trip_updates feed).tripUpdateRecords ∧
      (tripUpdateProj tu).delay = tu.delay ∧
      (tripUpdateProj tu).vehicle_id = tu.vehicle.map VehicleDescriptor.id ∧
      (tu.delay = none →
        (tripUpdateProj tu).delay = none ∧ (tripUpdateProj tu).delay ≠ some 0) ∧
      (tu.vehicle = none → (tripUpdateProj tu).vehicle_id = none)) ∧
    (e.vehicle = some v →
      vehicleProj v ∈ (parse_vehicle_positions feed).vehiclePositionRecords ∧
      (vehicleProj v).position.isSome = v.position.isSome ∧
      (v.position = none → (vehicleProj v).position = none)) := by
  constructor
  · intro htu
    refine ⟨?_, rfl, rfl, ?_, ?_⟩
    · simp only [parse_trip_updates, ParsedData.tripUpdateRecords,
        List.mem_filterMap]
      exact ⟨e, he, by rw [htu]; rfl⟩
    · intro hd
      simp [tripUpdateProj, hd]
    · intro hv
      simp [tripUpdateProj, hv]
  · intro hv
    refine ⟨?_, ?_, ?_⟩
    · simp only [parse_vehicle_positions, ParsedData.vehiclePositionRecords,
        List.mem_filterMap]
      exact ⟨e, he, by rw [hv]; rfl⟩
    · simp [vehicleProj]
    · intro hp
      simp [vehicleProj, hp]

/-- Witness for C6: the spec's scenario feed (one entity, no delay, no
vehicle) decodes to a member record with `delay = none ≠ some 0` and
`vehicle_id = none`; a vehicle entity without position decodes to a
member record with `position = none`. -/
theorem C6_witness :
    tripUpdateProj scenarioTrip ∈
      (parse_trip_updates scenarioFeedTU).tripUpdateRecords ∧
    (tripUpdateProj scenarioTrip).delay = none ∧
    (tripUpdateProj scenarioTrip).delay ≠ some 0 ∧
    (tripUpdateProj scenarioTrip).vehicle_id = none ∧
    vehicleProj scenarioVehicle ∈
      (parse_vehicle_positions scenarioFeedVP).vehiclePositionRecords ∧
    (vehicleProj scenarioVehicle).position = none := by
  have h1 := (C6_optional_fields_not_defaulted scenarioFeedTU
    ⟨some scenarioTrip, none⟩ scenarioTrip scenarioVehicle (by decide)).1 rfl
  have h2 := (C6_optional_fields_not_defaulted scenarioFeedVP
    ⟨none, some scenarioVehicle⟩ scenarioTrip scenarioVehicle (by decide)).2 rfl
  exact ⟨h1.1, (h1.2.2.2.1 rfl).1, (h1.2.2.2.1 rfl).2, h1.2.2.2.2 rfl,
    h2.1, h2.2.2 rfl⟩

/-- The table-reading loop, run from any accumulator, appends exactly the
recognized files that are present and parse, each stripped of `.txt`. -/
theorem read_zip_tables_fold (zf : ZipFile) (files : List String) :
    ∀ acc : List (String × DataFrame),
      files.foldl (fun gtfs_data file_name =>
        match zf.files.lookup file_name with
        | some (some df) => gtfs_data ++ [(stripTxt file_name, df)]
        | some none => gtfs_data
        | none => gtfs_data) acc =
      acc ++ files.filterMap (fun file_name =>
        match zf.files.lookup file_name with
        | some (some df) => some (stripTxt file_name, df)
        | some none => none
        | none => none) := by
  induction files with
  | nil => intro acc; simp
  | cons a files ih =>
    intro acc
    rcases hl : zf.files.lookup a with _ | (_ | df) <;>
      simp [List.foldl_cons, hl, ih]

/-- The keys selected by the per-file filter are exactly the recognized
files that are present and parse, stripped of `.txt`. -/
theorem zip_tables_keys (zf : ZipFile) (files : List String) :
    (files.filterMap (fun file_name =>
      match zf.files.lookup file_name with
      | some (some df) => some (stripTxt file_name, df)
      | some none => none
      | none => none)).map Prod.fst =
    (files.filter (tableParses zf)).map stripTxt := by
  induction files with
  | nil => rfl
  | cons a files ih =>
    rcases hl : zf.files.lookup a with _ | (_ | df) <;>
      simp [hl, tableParses, ih]

/-- C7: static-bundle decoding has per-table partial success.  For every
openable archive, the keys of the resulting table set are exactly the
recognized table files that are present and parse, in the fixed order,
with `.txt` stripped — an absent file is simply missing and a parse
failure drops only its own table.  Concretely, an archive containing only
`stops.txt` and `routes.txt` decodes to exactly those two keys (also when
a third present table fails to parse), and a fetched bundle hands the
tables and the raw bytes back to the caller. -/
theorem C7_static_partial_success (zf : ZipFile) :
    (read_zip_tables zf).map Prod.fst =
      (gtfs_files.filter (tableParses zf)).map stripTxt ∧
    read_zip_tables ⟨[("stops.txt", some [["s1"]]),
                      ("routes.txt", some [["r1"]])]⟩ =
      [("stops", [["s1"]]), ("routes", [["r1"]])] ∧
    read_zip_tables ⟨[("stops.txt", some [["s1"]]),
                      ("routes.txt", some [["r1"]]),
                      ("trips.txt", none)]⟩ =
      [("stops", [["s1"]]), ("routes", [["r1"]])] ∧
    fetch_gtfs_static_data (fun _ => some zf) (FetchOutcome.ok [0]) =
      some (read_zip_tables zf, [0]) := by
  refine ⟨?_, by decide, by decide, rfl⟩
  rw [read_zip_tables, read_zip_tables_fold zf gtfs_files []]
  simpa using zip_tables_keys zf gtfs_files

/-- C8: in continuous mode, over any finite prefix of cycle outcomes
containing no operator interrupt, every outcome is processed: a completed
cycle and an unexpected error alike are followed by a wait and then the
next cycle, the trace never contains the user-stop event, and the loop
reaches a terminal stop exactly when an interrupt occurs — the remaining
iterations after an interrupt are never run. -/
theorem C8_errors_route_back_to_waiting
    (interval : Nat) (pre post : List CycleOutcome)
    (h : CycleOutcome.interrupt ∉ pre) :
    continuous_ingestion interval pre =
      pre.flatMap (loopCycleEvents interval) ∧
    LoopEvent.stoppedByUser ∉ continuous_ingestion interval pre ∧
    continuous_ingestion interval (pre ++ CycleOutcome.interrupt :: post) =
      pre.flatMap (loopCycleEvents interval) ++ [LoopEvent.stoppedByUser] := by
  induction pre with
  | nil =>
    refine ⟨rfl, by simp [continuous_ingestion], ?_⟩
    simp [continuous_ingestion]
  | cons o pre ih =>
    have ho : o ≠ CycleOutcome.interrupt := fun hh => h (hh ▸ List.mem_cons_self o pre)
    have hpre : CycleOutcome.interrupt ∉ pre := fun hh => h (List.mem_cons_of_mem o hh)
    obtain ⟨ih1, ih2, ih3⟩ := ih hpre
    cases o with
    | ok results =>
      refine ⟨?_, ?_, ?_⟩
      · simp [continuous_ingestion, loopCycleEvents, ih1]
      · intro hc
        simp only [continuous_ingestion, List.mem_cons] at hc
        rcases hc with hc | hc | hc
        · simp at hc
        · simp at hc
        · exact ih2 hc
      · simp [continuous_ingestion, loopCycleEvents, ih3]
    | unexpectedError =>
      refine ⟨?_, ?_, ?_⟩
      · simp [continuous_ingestion, loopCycleEvents, ih1]
      · intro hc
        simp only [continuous_ingestion, List.mem_cons] at hc
        rcases hc with hc | hc | hc
        · simp at hc
        · simp at hc
        · exact ih2 hc
      · simp [continuous_ingestion, loopCycleEvents, ih3]
    | interrupt => exact absurd rfl ho

/-- Witness for C8: a two-cycle prefix — an unexpected error, then a
successful cycle — is fully processed with a wait after each, no
user-stop event occurs, and appending an interrupt stops the loop right
there. -/
theorem C8_witness :
    continuous_ingestion 60
      [CycleOutcome.unexpectedError, CycleOutcome.ok [("u", true)]] =
      [CycleOutcome.unexpectedError,
       CycleOutcome.ok [("u", true)]].flatMap (loopCycleEvents 60) ∧
    LoopEvent.stoppedByUser ∉ continuous_ingestion 60
      [CycleOutcome.unexpectedError, CycleOutcome.ok [("u", true)]] ∧
    continuous_ingestion 60
      ([CycleOutcome.unexpectedError, CycleOutcome.ok [("u", true)]] ++
        CycleOutcome.interrupt :: []) =
      [CycleOutcome.unexpectedError,
       CycleOutcome.ok [("u", true)]].flatMap (loopCycleEvents 60) ++
        [LoopEvent.stoppedByUser] :=
  C8_errors_route_back_to_waiting 60
    [CycleOutcome.unexpectedError, CycleOutcome.ok [("u", true)]] []
    (by decide)

/-- Inserting a key not yet present appends it at the end of the result
dict. -/
theorem dictInsert_fresh (m : List (String × Bool)) (k : String) (v : Bool)
    (h : k ∉ m.map Prod.fst) : dictInsert m k v = m ++ [(k, v)] := by
  unfold dictInsert
  rw [if_neg]
  intro hany
  obtain ⟨p, hp, he⟩ := List.any_eq_true.mp hany
  exact h (List.mem_map.mpr ⟨p, hp, of_decide_eq_true he⟩)

/-- The inner loop of `ingest_all_feeds` over the URLs of one feed type,
run from any accumulator whose result keys are disjoint from the (nodup)
URLs: it appends one result entry per URL and, per URL, an ingest event
followed by a sleep event. -/
theorem rt_urls_fold (env : CycleEnv) (d : Nat) (ft : String)
    (urls : List String) :
    ∀ (racc : List (String × Bool)) (tacc : List CycleEvent),
      (racc.map Prod.fst ++ urls).Nodup →
      urls.foldl (fun acc2 feed_url =>
        (dictInsert acc2.1 feed_url (rtSuccess env ft feed_url),
         acc2.2 ++ [CycleEvent.ingestedRT feed_url ft (rtSuccess env ft feed_url),
                    CycleEvent.slept d])) (racc, tacc) =
      (racc ++ urls.map (fun u => (u, rtSuccess env ft u)),
       tacc ++ urls.flatMap (fun u =>
         [CycleEvent.ingestedRT u ft (rtSuccess env ft u),
          CycleEvent.slept d])) := by
  induction urls with
  | nil => intro racc tacc h; simp
  | cons u us ih =>
    intro racc tacc h
    have hu : u ∉ racc.map Prod.fst := by
      rcases List.nodup_append.mp h with ⟨-, -, hdisj⟩
      exact fun hmem => hdisj hmem (List.mem_cons_self u us)
    have h2 : ((racc ++ [(u, rtSuccess env ft u)]).map Prod.fst ++ us).Nodup := by
      rw [List.map_append]
      have := (List.append_cons (racc.map Prod.fst) u us) ▸ h
      simpa using this
    simp only [List.foldl_cons]
    rw [show dictInsert racc u (rtSuccess env ft u) =
        racc ++ [(u, rtSuccess env ft u)] from dictInsert_fresh _ _ _ hu]
    rw [ih (racc ++ [(u, rtSuccess env ft u)])
      (tacc ++ [CycleEvent.ingestedRT u ft (rtSuccess env ft u),
                CycleEvent.slept d]) h2]
    simp

/-- The outer loop of `ingest_all_feeds` over the feed-type map, run from
any accumulator whose result keys are disjoint from the (nodup) URLs of
all feed types: it appends one result entry per URL in configured order,
and per URL an ingest event followed by a sleep event. -/
theorem rt_feeds_fold (env : CycleEnv) (d : Nat)
    (feeds : List (String × List String)) :
    ∀ (racc : List (String × Bool)) (tacc : List CycleEvent),
      (racc.map Prod.fst ++ (feeds.map Prod.snd).flatten).Nodup →
      feeds.foldl (fun acc ft =>
        ft.2.foldl (fun acc2 feed_url =>
          (dictInsert acc2.1 feed_url (rtSuccess env ft.1 feed_url),
           acc2.2 ++ [CycleEvent.ingestedRT feed_url ft.1 (rtSuccess env ft.1 feed_url),
                      CycleEvent.slept d])) acc) (racc, tacc) =
      (racc ++ feeds.flatMap (fun ft => ft.2.map (fun u => (u, rtSuccess env ft.1 u))),
       tacc ++ feeds.flatMap (fun ft => ft.2.flatMap (fun u =>
         [CycleEvent.ingestedRT u ft.1 (rtSuccess env ft.1 u),
          CycleEvent.slept d]))) := by
  induction feeds with
  | nil => intro racc tacc h; simp
  | cons p ps ih =>
    intro racc tacc h
    have hassoc : racc.map Prod.fst ++ ((p :: ps).map Prod.snd).flatten =
        (racc.map Prod.fst ++ p.2) ++ (ps.map Prod.snd).flatten := by
      simp [List.append_assoc]
    have hfirst : (racc.map Prod.fst ++ p.2).Nodup := by
      refine List.Nodup.sublist ?_ (hassoc ▸ h)
      exact List.sublist_append_left _ _
    have hrest : ((racc ++ p.2.map (fun u => (u, rtSuccess env p.1 u))).map Prod.fst ++
        (ps.map Prod.snd).flatten).Nodup := by
      rw [List.map_append, List.map_map]
      have hm : p.2.map (Prod.fst ∘ fun u => (u, rtSuccess env p.1 u)) = p.2 := by
        rw [show (Prod.fst ∘ fun u => (u, rtSuccess env p.1 u)) = id from rfl]
        exact List.map_id _
      rw [hm, List.append_assoc]
      exact hassoc ▸ h
    simp only [List.foldl_cons]
    rw [rt_urls_fold env d p.1 p.2 racc tacc hfirst]
    rw [ih _ _ hrest]
    simp [List.flatMap_cons, List.append_assoc]

/-- C1: over a configuration whose static URL and real-time URLs are
pairwise distinct, one `ingest_all_feeds` cycle returns exactly the
result map that lists the static source first and then every real-time
source in configured order, each with its own outcome: the map has
`1 + n` entries for `n` configured real-time URLs, a failed source leaves
every other source's entry in place, and the number of `false` entries is
exactly the number of failing sources (static failure contributing one
plus one per failing real-time source). -/
theorem C1_ingest_all_result_map (env : CycleEnv) (cfg : GTFSConfig)
    (h : (cfg.gtfs_static_url :: cfg.rtUrls).Nodup) :
    (ingest_all_feeds env cfg).1 = cycleResultsSpec env cfg ∧
    (ingest_all_feeds env cfg).1.length = 1 + cfg.rtUrls.length ∧
    (ingest_all_feeds env cfg).1.countP (fun p => !p.2) =
      ((if staticSuccess env cfg then 0 else 1) +
        (cfg.feeds.flatMap (fun ft =>
          ft.2.map (fun u => rtSuccess env ft.1 u))).countP (fun b => !b)) := by
  have hkey : ((dictInsert [] cfg.gtfs_static_url (staticSuccess env cfg)).map
      Prod.fst ++ (cfg.feeds.map Prod.snd).flatten).Nodup := by
    have : dictInsert [] cfg.gtfs_static_url (staticSuccess env cfg) =
        [(cfg.gtfs_static_url, staticSuccess env cfg)] := rfl
    rw [this]
    simpa [GTFSConfig.rtUrls] using h
  have hmain : ingest_all_feeds env cfg =
      (cycleResultsSpec env cfg, cycleTraceSpec env cfg) := by
    unfold ingest_all_feeds
    rw [rt_feeds_fold env cfg.request_delay cfg.feeds _ _ hkey]
    simp [cycleResultsSpec, cycleTraceSpec, dictInsert, staticSuccess]
  refine ⟨by rw [hmain], ?_, ?_⟩
  · rw [hmain]
    simp only [cycleResultsSpec, List.length_cons]
    have hlen : ∀ feeds : List (String × List String),
        (feeds.flatMap (fun ft => ft.2.map (fun u => (u, rtSuccess env ft.1 u)))).length =
        ((feeds.map Prod.snd).flatten).length := by
      intro feeds
      induction feeds with
      | nil => rfl
      | cons q qs ihq => simp [ihq]
    rw [hlen]
    simp [GTFSConfig.rtUrls, Nat.add_comm]
  · rw [hmain]
    simp only [cycleResultsSpec, List.countP_cons]
    have hcnt : ∀ feeds : List (String × List String),
        (feeds.flatMap (fun ft => ft.2.map (fun u => (u, rtSuccess env ft.1 u)))).countP
            (fun p => !p.2) =
        (feeds.flatMap (fun ft => ft.2.map (fun u => rtSuccess env ft.1 u))).countP
            (fun b => !b) := by
      intro feeds
      induction feeds with
      | nil => rfl
      | cons q qs ihq =>
        simp only [List.flatMap_cons, List.countP_append, ihq, List.countP_map]
        rfl
    rw [hcnt]
    cases hs : staticSuccess env cfg <;> simp [Nat.add_comm]

/-- Witness for C1: the repository's default configuration (one static
URL and two distinct real-time URLs) under an all-timeout environment. -/
theorem C1_witness :
    (ingest_all_feeds timeoutEnv DEFAULT_CONFIG).1 =
      cycleResultsSpec timeoutEnv DEFAULT_CONFIG ∧
    (ingest_all_feeds timeoutEnv DEFAULT_CONFIG).1.length =
      1 + DEFAULT_CONFIG.rtUrls.length ∧
    (ingest_all_feeds timeoutEnv DEFAULT_CONFIG).1.countP (fun p => !p.2) =
      ((if staticSuccess timeoutEnv DEFAULT_CONFIG then 0 else 1) +
        (DEFAULT_CONFIG.feeds.flatMap (fun ft =>
          ft.2.map (fun u => rtSuccess timeoutEnv ft.1 u))).countP (fun b => !b)) :=
  C1_ingest_all_result_map timeoutEnv DEFAULT_CONFIG (by decide)

/-- The inner loop of `ingest_all_feeds` always appends, per URL, one
ingest event followed by one sleep event to the trace — with no
assumption on the accumulator or the URLs. -/
theorem rt_urls_fold_trace (env : CycleEnv) (d : Nat) (ft : String)
    (urls : List String) :
    ∀ acc : List (String × Bool) × List CycleEvent,
      (urls.foldl (fun acc2 feed_url =>
        (dictInsert acc2.1 feed_url (rtSuccess env ft feed_url),
         acc2.2 ++ [CycleEvent.ingestedRT feed_url ft (rtSuccess env ft feed_url),
                    CycleEvent.slept d])) acc).2 =
      acc.2 ++ urls.flatMap (fun u =>
        [CycleEvent.ingestedRT u ft (rtSuccess env ft u),
         CycleEvent.slept d]) := by
  induction urls with
  | nil => intro acc; simp
  | cons u us ih =>
    intro acc
    simp only [List.foldl_cons]
    rw [ih]
    simp

/-- The outer loop of `ingest_all_feeds` always appends, per real-time
URL in configured order, one ingest event followed by one sleep event —
unconditionally. -/
theorem rt_feeds_fold_trace (env : CycleEnv) (d : Nat)
    (feeds : List (String × List String)) :
    ∀ acc : List (String × Bool) × List CycleEvent,
      (feeds.foldl (fun acc ft =>
        ft.2.foldl (fun acc2 feed_url =>
          (dictInsert acc2.1 feed_url (rtSuccess env ft.1 feed_url),
           acc2.2 ++ [CycleEvent.ingestedRT feed_url ft.1 (rtSuccess env ft.1 feed_url),
                      CycleEvent.slept d])) acc) acc).2 =
      acc.2 ++ feeds.flatMap (fun ft => ft.2.flatMap (fun u =>
        [CycleEvent.ingestedRT u ft.1 (rtSuccess env ft.1 u),
         CycleEvent.slept d])) := by
  induction feeds with
  | nil => intro acc; simp
  | cons p ps ih =>
    intro acc
    simp only [List.foldl_cons]
    rw [ih, rt_urls_fold_trace env d p.1 p.2 acc]
    simp [List.flatMap_cons, List.append_assoc]

/-- Each URL contributes exactly one sleep event to an inner trace
block. -/
theorem countP_slept_urls (env : CycleEnv) (d : Nat) (ft : String)
    (urls : List String) :
    (urls.flatMap (fun u =>
      [CycleEvent.ingestedRT u ft (rtSuccess env ft u),
       CycleEvent.slept d])).countP isSlept = urls.length := by
  induction urls with
  | nil => rfl
  | cons u us ih => simp [List.flatMap_cons, List.countP_append, ih, isSlept,
      List.countP_cons]

/-- Each feed type contributes one sleep event per URL to the cycle
trace. -/
theorem countP_slept_feeds (env : CycleEnv) (d : Nat)
    (feeds : List (String × List String)) :
    (feeds.flatMap (fun ft => ft.2.flatMap (fun u =>
      [CycleEvent.ingestedRT u ft.1 (rtSuccess env ft.1 u),
       CycleEvent.slept d]))).countP isSlept =
    ((feeds.map Prod.snd).flatten).length := by
  induction feeds with
  | nil => rfl
  | cons p ps ih =>
    simp only [List.flatMap_cons, List.countP_append, ih, List.map_cons,
      List.flatten_cons, List.length_append]
    rw [countP_slept_urls]

/-- C3 counterexample: with the repository's default configuration
(`n = 2` real-time URLs) the cycle trace contains 2 sleep events — one
after each real-time fetch, including the last — not the `n - 1 = 1`
pauses the claim states. -/
theorem C3_counterexample :
    DEFAULT_CONFIG.rtUrls.length = 2 ∧
    ¬ ((ingest_all_feeds timeoutEnv DEFAULT_CONFIG).2.countP isSlept =
        DEFAULT_CONFIG.rtUrls.length - 1) := by
  decide

/-- C3 amended: during one `ingest_all_feeds` cycle the configured
inter-request delay is slept once after EVERY real-time fetch — also
after the last one — and never after the static fetch: for a cycle over
`n` real-time sources exactly `n` pauses occur, each immediately
following its real-time ingest in the trace. -/
theorem C3_amended_sleep_after_every_rt_fetch (env : CycleEnv)
    (cfg : GTFSConfig) :
    (ingest_all_feeds env cfg).2 = cycleTraceSpec env cfg ∧
    (ingest_all_feeds env cfg).2.countP isSlept = cfg.rtUrls.length := by
  have htrace : (ingest_all_feeds env cfg).2 = cycleTraceSpec env cfg := by
    unfold ingest_all_feeds
    rw [rt_feeds_fold_trace env cfg.request_delay cfg.feeds]
    simp [cycleTraceSpec]
  refine ⟨htrace, ?_⟩
  rw [htrace]
  simp only [cycleTraceSpec, List.countP_cons]
  rw [countP_slept_feeds]
  simp [GTFSConfig.rtUrls, isSlept]

end GTFSPipeline
